import Mathlib

/-
Shallow embedding of the real-time conversation fan-out subsystem of the
fasolink backend: the websocket consumers (src/api/consumers.py), the token
authentication middleware (src/api/middleware.py), the channel-layer bridge
(src/api/ws_events.py) and the REST call sites that use it (src/api/views.py),
over the data model of src/api/models.py (Conversation, Message, MessageRead).

Machine integers do not occur (Django ids are unbounded); timestamps are
modelled as an abstract Nat clock supplied by the database state, and the
isoformat rendering as an injective rendering to String.
-/

namespace Fasolink

/-- A Django User row (only the fields the subsystem reads).
Real users always have is_authenticated = true; the flag is kept because the
source tests it explicitly. -/
structure UserRec where
  id : Nat
  username : String
  is_authenticated : Bool
deriving Repr, DecidableEq

/-- The principal attached to a connection scope: either a resolved user or
the AnonymousUser sentinel (also covering an absent scope user). -/
inductive Principal where
  | anonymous
  | user (u : UserRec)
deriving Repr, DecidableEq

/-- A Conversation row with its participant ids (the M2M through table). -/
structure Conversation where
  id : Nat
  participants : List Nat
deriving Repr, DecidableEq

/-- A Message row. sender_username caches sender.username at creation time,
standing for the FK dereference msg.sender.username. -/
structure Message where
  id : Nat
  conversation_id : Nat
  sender_id : Nat
  sender_username : String
  content : String
  timestamp : Nat
deriving Repr, DecidableEq

/-- A MessageRead row: unique_together ("message", "user"). -/
structure MessageRead where
  message_id : Nat
  user_id : Nat
deriving Repr, DecidableEq

/-- Database state seen through the persistence gateway. nextId models the
autoincrement pk sequence, now the auto_now_add clock. -/
structure DB where
  conversations : List Conversation
  messages : List Message
  reads : List MessageRead
  nextId : Nat
  now : Nat
deriving Repr, DecidableEq

/-- Exceptions that can escape the embedded Python code. -/
inductive PyExc where
  | http404
  | doesNotExist
  | attributeError
  | permissionDenied
deriving Repr, DecidableEq

/-- Conversation lookup by pk: Conversation.objects.get / get_object_or_404
both resolve the row this way; they differ only in the exception raised. -/
def DB.getConversation (db : DB) (cid : Nat) : Option Conversation :=
  db.conversations.find? (fun c => c.id == cid)

/-- Python str.strip on the leading side. -/
def dropWhileWs : List Char → List Char
  | [] => []
  | c :: cs => if c.isWhitespace then dropWhileWs cs else c :: cs

/-- Python str.strip: remove leading and trailing whitespace. -/
def pyStrip (s : String) : String :=
  String.mk ((dropWhileWs (dropWhileWs s.data).reverse).reverse)

/-- isoformat rendering of a model timestamp: any injective rendering of the
stored value serves the claims, which only need that the broadcast carries a
rendering of the persisted record's own timestamp. -/
def isoformat (t : Nat) : String := toString t

/-- Outbound payload for a chat.message group event, mirroring the dict built
in ChatConsumer.receive_json. -/
structure MsgPayload where
  id : Nat
  content : String
  sender_id : Nat
  sender : String
  timestamp : String
deriving Repr, DecidableEq

/-- The payload dict {id, content, sender, sender_id, timestamp} built from a
persisted Message row. -/
def messagePayload (m : Message) : MsgPayload :=
  { id := m.id
  , content := m.content
  , sender_id := m.sender_id
  , sender := m.sender_username
  , timestamp := isoformat m.timestamp }

/-- Payload of a notify event pushed to a user group from views.py. -/
structure NotifPayload where
  event : String
  conversation_id : Nat
deriving Repr, DecidableEq

/-- A message put on the channel layer for a group (the "type"-keyed dicts of
group_send calls). -/
inductive GroupMsg where
  | chatTyping (user_id : Option Nat)
  | chatMessage (message : MsgPayload)
  | chatRead (user_id : Option Nat) (updated : Nat)
  | notify (data : NotifPayload)
deriving Repr, DecidableEq

/-- Observable effects of consumer code, in program order. -/
inductive Effect where
  | persistMessage (m : Message)
  | send (group : String) (msg : GroupMsg)
  | close (code : Nat)
  | accept
  | groupAdd (group : String) (channel : String)
  | groupDiscard (group : String) (channel : String)
deriving Repr, DecidableEq

/-- Group name for a conversation channel. -/
def convoGroup (cid : Nat) : String := "convo_" ++ toString cid

/-- Group name for a user notification channel. -/
def userGroup (uid : Nat) : String := "user_" ++ toString uid

/-- The channel layer's group table: group name to member channel names. -/
abbrev Groups := List (String × List String)

/-- Member channels of a group (empty when the group was never joined). -/
def Groups.members (gs : Groups) (g : String) : List String :=
  match gs.find? (fun p => p.1 == g) with
  | none => []
  | some p => p.2

/-- channel_layer.group_add: idempotent insertion of a channel in a group. -/
def group_add (gs : Groups) (g ch : String) : Groups :=
  match gs.find? (fun p => p.1 == g) with
  | some _ => gs.map (fun p => if p.1 == g then (p.1, if ch ∈ p.2 then p.2 else p.2 ++ [ch]) else p)
  | none => gs ++ [(g, [ch])]

/-- channel_layer.group_discard: remove a channel from a group, a no-op when
absent. -/
def group_discard (gs : Groups) (g ch : String) : Groups :=
  gs.map (fun p => if p.1 == g then (p.1, p.2.filter (fun c => c ≠ ch)) else p)

/-- Interpretation of an effect on the group table (send/close/accept and the
database writes do not touch group membership). -/
def applyEffect (gs : Groups) : Effect → Groups
  | .groupAdd g ch => group_add gs g ch
  | .groupDiscard g ch => group_discard gs g ch
  | _ => gs

/-- Run a whole effect trace over the group table. -/
def applyEffects (gs : Groups) (es : List Effect) : Groups :=
  es.foldl applyEffect gs

/-! Connection Authenticator: TokenAuthMiddleware (src/api/middleware.py).
The DRF token store is an external collaborator; it is passed as an abstract
lookup function that either fails (store unavailable / malformed key) or
returns the user of the matching token, if any. -/

/-- Result of Token.objects.select_related("user").filter(key=key).first:
the lookup may raise (error), find nothing (ok none) or find a token, whose
user is returned (ok (some u)). -/
abbrev TokenStore := String → Except Unit (Option UserRec)

/-- TokenAuthMiddleware.get_user: the falsy test catches both an absent token
parameter and an empty one; any exception from the lookup is swallowed into
AnonymousUser. -/
def TokenAuthMiddleware.get_user (store : TokenStore) (token_key : Option String) : Principal :=
  match token_key with
  | none => .anonymous
  | some k =>
    if k = "" then .anonymous
    else
      match store k with
      | .error _ => .anonymous
      | .ok none => .anonymous
      | .ok (some u) => .user u

/-! ChatConsumer (src/api/consumers.py). -/

/-- Attributes set on a ChatConsumer instance (none models an attribute that
was never assigned, whose read raises AttributeError). -/
structure ChatState where
  conversation_id : Option Nat
  group_name : Option String
deriving Repr, DecidableEq

/-- ChatConsumer._user_allowed: false for a missing or anonymous or
unauthenticated scope user; otherwise get_object_or_404 on the conversation
(raising Http404 when absent) and a participant membership test. -/
def ChatConsumer.user_allowed (db : DB) (user : Principal) (cid : Nat) : Except PyExc Bool :=
  match user with
  | .anonymous => .ok false
  | .user u =>
    if u.is_authenticated = false then .ok false
    else
      match db.getConversation cid with
      | none => .error .http404
      | some convo => .ok (convo.participants.contains u.id)

/-- Outcome of ChatConsumer.connect: the instance attributes it set, the
effects it performed in order, and the exception that escaped it, if any. -/
structure ChatConnectOut where
  st : ChatState
  effects : List Effect
  exc : Option PyExc
deriving Repr, DecidableEq

/-- ChatConsumer.connect: record url kwargs, authorize, then either close
with 4403, or join the conversation group and accept. -/
def ChatConsumer.connect (db : DB) (user : Principal) (cid : Nat) (channel : String) : ChatConnectOut :=
  let group := convoGroup cid
  let st : ChatState := { conversation_id := some cid, group_name := some group }
  match ChatConsumer.user_allowed db user cid with
  | .error e => { st := st, effects := [], exc := some e }
  | .ok false => { st := st, effects := [Effect.close 4403], exc := none }
  | .ok true => { st := st, effects := [Effect.groupAdd group channel, Effect.accept], exc := none }

/-- ChatConsumer.disconnect: group_discard on self.group_name (reading an
attribute that was never assigned raises AttributeError). -/
def ChatConsumer.disconnect (st : ChatState) (channel : String) : Except PyExc (List Effect) :=
  match st.group_name with
  | none => .error .attributeError
  | some g => .ok [Effect.groupDiscard g channel]

/-- ChatConsumer._create_message: Conversation.objects.get (raising
DoesNotExist when absent) then Message.objects.create, which assigns the next
pk and the creation timestamp. -/
def ChatConsumer.create_message (db : DB) (u : UserRec) (cid : Nat) (content : String) :
    Except PyExc (Message × DB) :=
  match db.getConversation cid with
  | none => .error .doesNotExist
  | some convo =>
    let msg : Message :=
      { id := db.nextId
      , conversation_id := convo.id
      , sender_id := u.id
      , sender_username := u.username
      , content := content
      , timestamp := db.now }
    .ok (msg, { db with messages := db.messages ++ [msg], nextId := db.nextId + 1 })

/-- Whether a MessageRead row (mid, uid) exists: the reads__user=user join. -/
def isReadBy (db : DB) (mid uid : Nat) : Bool :=
  db.reads.any (fun r => r.message_id == mid && r.user_id == uid)

/-- The queryset convo.messages.exclude(sender=user).exclude(reads__user=user)
shared by ChatConsumer._mark_read and MarkConversationReadView.post. -/
def unreadMessages (db : DB) (u : UserRec) (cid : Nat) : List Message :=
  db.messages.filter (fun m =>
    m.conversation_id == cid && !(m.sender_id == u.id) && !(isReadBy db m.id u.id))

/-- MessageRead.objects.bulk_create(batch, ignore_conflicts=True): insert each
row of the batch, silently skipping one whose ("message", "user") key is
already present. -/
def bulk_create_ignore_conflicts (reads : List MessageRead) (batch : List MessageRead) :
    List MessageRead :=
  batch.foldl (fun acc r =>
    if acc.any (fun r0 => r0.message_id == r.message_id && r0.user_id == r.user_id) then acc
    else acc ++ [r]) reads

/-- ChatConsumer._mark_read: Conversation.objects.get, build a MessageRead for
every currently-unread non-own message, bulk-insert them duplicate-safely and
return len(to_create). -/
def ChatConsumer.mark_read (db : DB) (u : UserRec) (cid : Nat) : Except PyExc (Nat × DB) :=
  match db.getConversation cid with
  | none => .error .doesNotExist
  | some _ =>
    let to_create := (unreadMessages db u cid).map (fun m => MessageRead.mk m.id u.id)
    .ok (to_create.length, { db with reads := bulk_create_ignore_conflicts db.reads to_create })

/-- An inbound client payload as read by receive_json: a JSON object whose
"action" and "content" keys may each be absent. -/
structure Inbound where
  action : Option String
  content : Option String
deriving Repr, DecidableEq

/-- Outcome of one receive_json call: the database afterwards, the effects in
program order, and the exception that escaped it, if any. -/
structure StepOut where
  db : DB
  effects : List Effect
  exc : Option PyExc
deriving Repr, DecidableEq

/-- ChatConsumer.receive_json: dispatch on the action tag. typing broadcasts
immediately; message strips the text, drops it when empty, otherwise persists
and then broadcasts the persisted record; read persists the markers and
broadcasts the count; any other payload falls through the if/elif chain. -/
def ChatConsumer.receive_json (db : DB) (u : UserRec) (group : String) (cid : Nat)
    (ev : Inbound) : StepOut :=
  match ev.action with
  | none => { db := db, effects := [], exc := none }
  | some a =>
    if a = "typing" then
      { db := db, effects := [Effect.send group (GroupMsg.chatTyping (some u.id))], exc := none }
    else if a = "message" then
      let text := pyStrip (ev.content.getD "")
      if text = "" then { db := db, effects := [], exc := none }
      else
        match ChatConsumer.create_message db u cid text with
        | .error e => { db := db, effects := [], exc := some e }
        | .ok (msg, db') =>
          { db := db'
          , effects := [Effect.persistMessage msg,
              Effect.send group (GroupMsg.chatMessage (messagePayload msg))]
          , exc := none }
    else if a = "read" then
      match ChatConsumer.mark_read db u cid with
      | .error e => { db := db, effects := [], exc := some e }
      | .ok (updated, db') =>
        { db := db'
        , effects := [Effect.send group (GroupMsg.chatRead (some u.id) updated)]
        , exc := none }
    else { db := db, effects := [], exc := none }

/-- Modelled from the spec: the per-connection inbound event loop is provided
by the websocket framework, outside this repository's sources; per the spec,
inbound events of one connection are processed strictly in arrival order and a
persistence failure aborts only that single event's processing while the
connection remains OPEN and keeps processing subsequent events. -/
def run_events (u : UserRec) (group : String) (cid : Nat) :
    DB → List Inbound → DB × List Effect
  | db, [] => (db, [])
  | db, ev :: rest =>
    let out := ChatConsumer.receive_json db u group cid ev
    let (dbf, trf) := run_events u group cid out.db rest
    (dbf, out.effects ++ trf)

/-! UserNotificationsConsumer (src/api/consumers.py). -/

/-- Attributes set on a UserNotificationsConsumer instance. -/
structure NotifState where
  group_name : Option String
deriving Repr, DecidableEq

/-- Outcome of UserNotificationsConsumer.connect (it touches no database, so
no exception can escape it). -/
structure NotifConnectOut where
  st : NotifState
  effects : List Effect
deriving Repr, DecidableEq

/-- UserNotificationsConsumer.connect: close 4403 unless the scope user is
authenticated; only on success is self.group_name assigned, before joining
the user group and accepting. -/
def UserNotificationsConsumer.connect (user : Principal) (channel : String) : NotifConnectOut :=
  match user with
  | .anonymous => { st := { group_name := none }, effects := [Effect.close 4403] }
  | .user u =>
    if u.is_authenticated then
      { st := { group_name := some (userGroup u.id) }
      , effects := [Effect.groupAdd (userGroup u.id) channel, Effect.accept] }
    else { st := { group_name := none }, effects := [Effect.close 4403] }

/-- UserNotificationsConsumer.disconnect: group_discard on self.group_name,
an attribute that the forbidden connect path never assigned. -/
def UserNotificationsConsumer.disconnect (st : NotifState) (channel : String) :
    Except PyExc (List Effect) :=
  match st.group_name with
  | none => .error .attributeError
  | some g => .ok [Effect.groupDiscard g channel]

/-! Fan-out Publisher (src/api/ws_events.py) and its REST call sites
(src/api/views.py). The channel layer is an external collaborator passed as
an abstract send function that may fail on any group. -/

/-- channel_layer.group_send as seen by the synchronous bridge: it may raise. -/
abbrev Layer := String → GroupMsg → Except Unit Unit

/-- ws_events.broadcast_conversation_message. -/
def broadcast_conversation_message (layer : Layer) (cid : Nat) (p : MsgPayload) :
    Except Unit Unit :=
  layer (convoGroup cid) (GroupMsg.chatMessage p)

/-- ws_events.broadcast_conversation_read. -/
def broadcast_conversation_read (layer : Layer) (cid : Nat) (uid : Nat) (updated : Nat) :
    Except Unit Unit :=
  layer (convoGroup cid) (GroupMsg.chatRead (some uid) updated)

/-- ws_events.notify_user. -/
def notify_user (layer : Layer) (uid : Nat) (data : NotifPayload) : Except Unit Unit :=
  layer (userGroup uid) (GroupMsg.notify data)

/-- Sequential execution of the statements inside a try block: the first
exception aborts the remaining statements. -/
def seqDeliveries : List (Except Unit Unit) → Except Unit Unit
  | [] => .ok ()
  | d :: ds =>
    match d with
    | .error e => .error e
    | .ok () => seqDeliveries ds

/-- ConversationMessagesView.perform_create: get_object_or_404, participant
check, serializer.save (persisting the message), then — inside try/except
pass — broadcast to the conversation group and notify every other
participant's user group. Multipart file attachments are not modelled (no
request in scope carries files), so the payload's attachment list is elided. -/
def perform_create (db : DB) (layer : Layer) (u : UserRec) (cid : Nat) (text : String) :
    Except PyExc (Message × DB) :=
  match db.getConversation cid with
  | none => .error .http404
  | some convo =>
    if convo.participants.contains u.id then
      let msg : Message :=
        { id := db.nextId
        , conversation_id := convo.id
        , sender_id := u.id
        , sender_username := u.username
        , content := text
        , timestamp := db.now }
      let db' := { db with messages := db.messages ++ [msg], nextId := db.nextId + 1 }
      let attempts :=
        broadcast_conversation_message layer convo.id (messagePayload msg) ::
          (convo.participants.filter (fun pid => pid ≠ u.id)).map
            (fun pid => notify_user layer pid
              { event := "conversation.updated", conversation_id := convo.id })
      match seqDeliveries attempts with
      | _ => .ok (msg, db')
    else .error .permissionDenied

/-- MarkConversationReadView.post: get_object_or_404, participant check, the
same unread queryset and duplicate-safe bulk insert as the consumer, then —
inside try/except pass — broadcast the read count; responds with the count. -/
def mark_conversation_read_post (db : DB) (layer : Layer) (u : UserRec) (cid : Nat) :
    Except PyExc (Nat × DB) :=
  match db.getConversation cid with
  | none => .error .http404
  | some convo =>
    if convo.participants.contains u.id then
      let to_create := (unreadMessages db u cid).map (fun m => MessageRead.mk m.id u.id)
      let created := to_create.length
      let db' := { db with reads := bulk_create_ignore_conflicts db.reads to_create }
      match broadcast_conversation_read layer convo.id u.id created with
      | _ => .ok (created, db')
    else .error .permissionDenied

/-! Concrete fixtures used by the witnesses. -/

/-- A participant of conversation 5. -/
def alice : UserRec := { id := 1, username := "alice", is_authenticated := true }

/-- The other participant of conversation 5. -/
def bob : UserRec := { id := 2, username := "bob", is_authenticated := true }

/-- An authenticated user who is not a participant of conversation 5. -/
def eve : UserRec := { id := 3, username := "eve", is_authenticated := true }

/-- Conversation 5 between alice and bob. -/
def convo5 : Conversation := { id := 5, participants := [1, 2] }

/-- A database holding only conversation 5. -/
def db0 : DB := { conversations := [convo5], messages := [], reads := [], nextId := 10, now := 100 }

/-- db0 extended with two messages in conversation 5 (one from bob, one from
alice) and one in another conversation. -/
def db1 : DB :=
  { db0 with messages :=
      [ { id := 7, conversation_id := 5, sender_id := 2, sender_username := "bob"
        , content := "yo", timestamp := 50 }
      , { id := 8, conversation_id := 5, sender_id := 1, sender_username := "alice"
        , content := "own", timestamp := 60 }
      , { id := 9, conversation_id := 6, sender_id := 2, sender_username := "bob"
        , content := "other", timestamp := 70 } ] }

/-- A channel layer whose every group_send raises. -/
def failLayer : Layer := fun _ _ => .error ()

/-! Supporting lemmas about the duplicate-safe read-marker insert. -/

/-- Key of a MessageRead row under the unique_together ("message", "user")
constraint. -/
def readKey (r : MessageRead) : Nat × Nat := (r.message_id, r.user_id)

theorem conflict_false_of_readKey_ne (r r0 : MessageRead) (h : readKey r0 ≠ readKey r) :
    (r0.message_id == r.message_id && r0.user_id == r.user_id) = false := by
  by_cases h1 : r0.message_id = r.message_id
  · by_cases h2 : r0.user_id = r.user_id
    · exact absurd (by simp [readKey, h1, h2]) h
    · simp [h2]
  · simp [h1]

/-- With a batch whose keys are fresh for the existing rows and pairwise
distinct, the duplicate-tolerant bulk insert is a plain append. -/
theorem bulk_create_ic_eq_append :
    ∀ (batch reads : List MessageRead),
      (∀ r ∈ batch,
        reads.any (fun r0 => r0.message_id == r.message_id && r0.user_id == r.user_id) = false) →
      (batch.map readKey).Nodup →
      bulk_create_ignore_conflicts reads batch = reads ++ batch
  | [], reads, _, _ => by simp [bulk_create_ignore_conflicts]
  | r :: bs, reads, hdisj, hnd => by
    have hhead := hdisj r (List.mem_cons_self r bs)
    have hnotin : readKey r ∉ bs.map readKey := by
      simp only [List.map_cons, List.nodup_cons] at hnd
      exact hnd.1
    have hndtail : (bs.map readKey).Nodup := by
      simp only [List.map_cons, List.nodup_cons] at hnd
      exact hnd.2
    have h1 : bulk_create_ignore_conflicts reads (r :: bs) =
        bulk_create_ignore_conflicts (reads ++ [r]) bs := by
      unfold bulk_create_ignore_conflicts
      rw [List.foldl_cons, hhead]
      simp
    have hdisj' : ∀ r' ∈ bs,
        (reads ++ [r]).any
          (fun r0 => r0.message_id == r'.message_id && r0.user_id == r'.user_id) = false := by
      intro r' hr'
      rw [List.any_append]
      have ha := hdisj r' (List.mem_cons_of_mem _ hr')
      have hb : ([r].any
          (fun r0 => r0.message_id == r'.message_id && r0.user_id == r'.user_id)) = false := by
        simp only [List.any_cons, List.any_nil, Bool.or_false]
        refine conflict_false_of_readKey_ne r' r fun hk => ?_
        exact hnotin (hk ▸ List.mem_map_of_mem readKey hr')
      rw [ha, hb]
      decide
    rw [h1, bulk_create_ic_eq_append bs (reads ++ [r]) hdisj' hndtail]
    simp

/-- Every marker built from the unread queryset is fresh for the existing
MessageRead rows. -/
theorem unread_batch_disjoint (db : DB) (u : UserRec) (cid : Nat) :
    ∀ r ∈ (unreadMessages db u cid).map (fun m => MessageRead.mk m.id u.id),
      db.reads.any (fun r0 => r0.message_id == r.message_id && r0.user_id == r.user_id) = false := by
  intro r hr
  obtain ⟨m, hm, rfl⟩ := List.mem_map.mp hr
  have hmf := (List.mem_filter.mp hm).2
  have hread : isReadBy db m.id u.id = false := by
    simp only [Bool.and_eq_true, Bool.not_eq_true'] at hmf
    exact hmf.2
  simpa [isReadBy] using hread

/-- With pairwise-distinct message ids, the markers built from the unread
queryset have pairwise-distinct keys. -/
theorem unread_nodup_keys (db : DB) (u : UserRec) (cid : Nat)
    (hm : (db.messages.map Message.id).Nodup) :
    (((unreadMessages db u cid).map (fun m => MessageRead.mk m.id u.id)).map readKey).Nodup := by
  have h1 : ((unreadMessages db u cid).map Message.id).Nodup :=
    List.Nodup.sublist ((List.filter_sublist _).map Message.id) hm
  have h2 : (((unreadMessages db u cid).map Message.id).map
      (fun i => (i, u.id))).Nodup :=
    List.Nodup.map (fun a b h => congrArg Prod.fst h) h1
  rw [List.map_map] at h2 ⊢
  exact h2

/-- After inserting the markers for the unread set, the unread queryset of the
same principal and conversation is empty. -/
theorem unread_after_empty (db : DB) (u : UserRec) (cid : Nat) :
    unreadMessages
      { db with reads := db.reads ++
          (unreadMessages db u cid).map (fun m => MessageRead.mk m.id u.id) } u cid = [] := by
  apply List.filter_eq_nil_iff.mpr
  intro m hmem hpred
  simp only [Bool.and_eq_true, Bool.not_eq_true', beq_iff_eq] at hpred
  obtain ⟨⟨hconv, hsender⟩, hnotread⟩ := hpred
  rw [isReadBy, List.any_append, Bool.or_eq_false_iff] at hnotread
  obtain ⟨hold, hnew⟩ := hnotread
  have hmu : m ∈ unreadMessages db u cid := by
    refine List.mem_filter.mpr ⟨hmem, ?_⟩
    simp only [Bool.and_eq_true, Bool.not_eq_true', beq_iff_eq]
    exact ⟨⟨hconv, hsender⟩, hold⟩
  have hkey : (MessageRead.mk m.id u.id) ∈
      (unreadMessages db u cid).map (fun m => MessageRead.mk m.id u.id) :=
    List.mem_map_of_mem _ hmu
  have : ((unreadMessages db u cid).map (fun m => MessageRead.mk m.id u.id)).any
      (fun r => r.message_id == m.id && r.user_id == u.id) = true :=
    List.any_eq_true.mpr ⟨MessageRead.mk m.id u.id, hkey, by simp⟩
  rw [this] at hnew
  exact Bool.noConfusion hnew

/-- ChatConsumer._mark_read on an existing conversation with distinct message
ids: it reports the size of the unread set and appends exactly its markers. -/
theorem mark_read_spec (db : DB) (u : UserRec) (cid : Nat) (convo : Conversation)
    (hc : db.getConversation cid = some convo)
    (hm : (db.messages.map Message.id).Nodup) :
    ChatConsumer.mark_read db u cid =
      .ok ((unreadMessages db u cid).length,
        { db with reads := db.reads ++ (unreadMessages db u cid).map (fun m => MessageRead.mk m.id u.id) }) := by
  have hb := bulk_create_ic_eq_append
    ((unreadMessages db u cid).map (fun m => MessageRead.mk m.id u.id)) db.reads
    (unread_batch_disjoint db u cid) (unread_nodup_keys db u cid hm)
  simp [ChatConsumer.mark_read, hc, hb]

/-! Claim theorems. -/

/-- C5: for every inbound message event whose content is absent, empty, or
consists only of whitespace, nothing is persisted, no broadcast of any kind is
emitted and no exception escapes the handler (a silent no-op that leaves the
connection open). -/
theorem C5_blank_message_silent_noop
    (db : DB) (u : UserRec) (group : String) (cid : Nat) (ev : Inbound)
    (ha : ev.action = some "message")
    (hc : pyStrip (ev.content.getD "") = "") :
    ChatConsumer.receive_json db u group cid ev = { db := db, effects := [], exc := none } := by
  simp [ChatConsumer.receive_json, ha, hc]

/-- Witness for C5 at a whitespace-only payload. -/
theorem C5_blank_message_silent_noop_witness :
    ChatConsumer.receive_json db0 alice "convo_5" 5
        { action := some "message", content := some " \t " } =
      { db := db0, effects := [], exc := none } :=
  C5_blank_message_silent_noop db0 alice "convo_5" 5
    { action := some "message", content := some " \t " } rfl (by decide)

/-- C7: an inbound payload on an open conversation connection whose action tag
is not typing, message or read (including a payload with no action tag at all)
causes no database change, no broadcast, no exception and no close. -/
theorem C7_unknown_action_ignored
    (db : DB) (u : UserRec) (group : String) (cid : Nat) (ev : Inbound)
    (h : ∀ a, ev.action = some a → a ≠ "typing" ∧ a ≠ "message" ∧ a ≠ "read") :
    ChatConsumer.receive_json db u group cid ev = { db := db, effects := [], exc := none } := by
  cases hev : ev.action with
  | none => simp [ChatConsumer.receive_json, hev]
  | some a =>
    obtain ⟨h1, h2, h3⟩ := h a hev
    simp [ChatConsumer.receive_json, hev, h1, h2, h3]

/-- Witness for C7 at an unrecognized action tag. -/
theorem C7_unknown_action_ignored_witness :
    ChatConsumer.receive_json db0 alice "convo_5" 5 { action := some "subscribe", content := none } =
      { db := db0, effects := [], exc := none } :=
  C7_unknown_action_ignored db0 alice "convo_5" 5 { action := some "subscribe", content := none }
    (fun a ha => by cases ha; exact ⟨by decide, by decide, by decide⟩)

/-- C2: a principal that is not a participant of an existing conversation
(anonymous included) is closed with the distinct forbidden code 4403, no group
join occurs, and applying the connect effects to any group table leaves it
unchanged, so the principal's channel never appears in any group's membership. -/
theorem C2_non_participant_forbidden
    (db : DB) (p : Principal) (cid : Nat) (ch : String) (convo : Conversation)
    (hc : db.getConversation cid = some convo)
    (hp : p = .anonymous ∨ ∃ u, p = .user u ∧ u.id ∉ convo.participants) :
    (ChatConsumer.connect db p cid ch).effects = [Effect.close 4403] ∧
    (ChatConsumer.connect db p cid ch).exc = none ∧
    ∀ gs : Groups, applyEffects gs (ChatConsumer.connect db p cid ch).effects = gs := by
  have heff : ChatConsumer.connect db p cid ch =
      { st := { conversation_id := some cid, group_name := some (convoGroup cid) }
      , effects := [Effect.close 4403], exc := none } := by
    rcases hp with rfl | ⟨u, rfl, hmem⟩
    · simp [ChatConsumer.connect, ChatConsumer.user_allowed]
    · cases hau : u.is_authenticated with
      | false => simp [ChatConsumer.connect, ChatConsumer.user_allowed, hau]
      | true => simp [ChatConsumer.connect, ChatConsumer.user_allowed, hau, hc, hmem]
  refine ⟨by rw [heff], by rw [heff], fun gs => by rw [heff]; rfl⟩

/-- Witness for C2: the non-participant eve is refused on conversation 5 and a
sample group table is untouched. -/
theorem C2_non_participant_forbidden_witness :
    (ChatConsumer.connect db0 (.user eve) 5 "chE").effects = [Effect.close 4403] ∧
    applyEffects [("convo_5", ["chA"])] (ChatConsumer.connect db0 (.user eve) 5 "chE").effects =
      [("convo_5", ["chA"])] := by
  have h := C2_non_participant_forbidden db0 (.user eve) 5 "chE" convo5 rfl
    (Or.inr ⟨eve, rfl, by decide⟩)
  exact ⟨h.1, h.2.2 [("convo_5", ["chA"])]⟩

/-- C10: an authenticated principal connecting to a conversation id that does
not exist makes the membership check raise Http404 instead of returning false,
so connect propagates the exception: no forbidden 4403 close and no group join
is performed. -/
theorem C10_missing_conversation_raises
    (db : DB) (u : UserRec) (cid : Nat) (ch : String)
    (hau : u.is_authenticated = true)
    (hc : db.getConversation cid = none) :
    ChatConsumer.user_allowed db (.user u) cid = .error .http404 ∧
    ChatConsumer.connect db (.user u) cid ch =
      { st := { conversation_id := some cid, group_name := some (convoGroup cid) }
      , effects := [], exc := some .http404 } := by
  have hu : ChatConsumer.user_allowed db (.user u) cid = .error .http404 := by
    simp [ChatConsumer.user_allowed, hau, hc]
  exact ⟨hu, by simp [ChatConsumer.connect, hu]⟩

/-- Witness for C10: alice connecting to the nonexistent conversation 6. -/
theorem C10_missing_conversation_raises_witness :
    ChatConsumer.user_allowed db0 (.user alice) 6 = .error .http404 ∧
    ChatConsumer.connect db0 (.user alice) 6 "chA" =
      { st := { conversation_id := some 6, group_name := some (convoGroup 6) }
      , effects := [], exc := some .http404 } :=
  C10_missing_conversation_raises db0 alice 6 "chA" rfl rfl

/-- C6: the connection authenticator is a total function (it cannot raise);
whenever the presented token key matches a stored credential the resolved
principal is returned, and in every other case (token absent or empty, lookup
finding nothing, or the store failing) the anonymous sentinel is returned. -/
theorem C6_authenticator_total (store : TokenStore) (tk : Option String) :
    (TokenAuthMiddleware.get_user store tk = .anonymous ∨
      ∃ k u, tk = some k ∧ store k = .ok (some u) ∧
        TokenAuthMiddleware.get_user store tk = .user u) ∧
    (∀ k u, tk = some k → k ≠ "" → store k = .ok (some u) →
      TokenAuthMiddleware.get_user store tk = .user u) := by
  constructor
  · cases tk with
    | none => exact Or.inl (by simp [TokenAuthMiddleware.get_user])
    | some k =>
      by_cases hk : k = ""
      · exact Or.inl (by simp [TokenAuthMiddleware.get_user, hk])
      · cases hs : store k with
        | error e => exact Or.inl (by simp [TokenAuthMiddleware.get_user, hk, hs])
        | ok o =>
          cases o with
          | none => exact Or.inl (by simp [TokenAuthMiddleware.get_user, hk, hs])
          | some u =>
            exact Or.inr ⟨k, u, rfl, hs, by simp [TokenAuthMiddleware.get_user, hk, hs]⟩
  · intro k u htk hk hs
    subst htk
    simp [TokenAuthMiddleware.get_user, hk, hs]

/-- Witness for C6: a store holding a credential for alice resolves it. -/
theorem C6_authenticator_total_witness :
    TokenAuthMiddleware.get_user (fun _ => .ok (some alice)) (some "tok") = .user alice :=
  (C6_authenticator_total (fun _ => .ok (some alice)) (some "tok")).2 "tok" alice rfl
    (by decide) rfl

/-- C1: a message event with non-empty trimmed content, handled on an open
conversation connection over an existing conversation, persists exactly one
message (the database gains exactly that row and the pk sequence advances by
one) and broadcasts exactly one message.created event to the conversation
group, whose id, content, sender_id, sender display name and timestamp all
come verbatim from the persisted record. -/
theorem C1_message_persisted_once_broadcast_once
    (db : DB) (u : UserRec) (group : String) (cid : Nat) (ev : Inbound)
    (convo : Conversation)
    (hc : db.getConversation cid = some convo)
    (ha : ev.action = some "message")
    (ht : pyStrip (ev.content.getD "") ≠ "") :
    ∃ msg : Message,
      msg.id = db.nextId ∧ msg.conversation_id = convo.id ∧ msg.sender_id = u.id ∧
      msg.sender_username = u.username ∧ msg.content = pyStrip (ev.content.getD "") ∧
      msg.timestamp = db.now ∧
      ChatConsumer.receive_json db u group cid ev =
        { db := { db with messages := db.messages ++ [msg], nextId := db.nextId + 1 }
        , effects := [Effect.persistMessage msg,
            Effect.send group (GroupMsg.chatMessage (messagePayload msg))]
        , exc := none } ∧
      messagePayload msg =
        { id := msg.id, content := msg.content, sender_id := msg.sender_id
        , sender := msg.sender_username, timestamp := isoformat msg.timestamp } := by
  refine ⟨{ id := db.nextId, conversation_id := convo.id, sender_id := u.id
          , sender_username := u.username, content := pyStrip (ev.content.getD "")
          , timestamp := db.now }, rfl, rfl, rfl, rfl, rfl, rfl, ?_, rfl⟩
  simp [ChatConsumer.receive_json, ha, ht, ChatConsumer.create_message, hc]

/-- Witness for C1: alice sends " hello " on conversation 5. -/
theorem C1_message_persisted_once_broadcast_once_witness :
    ∃ msg : Message,
      msg.id = db0.nextId ∧ msg.conversation_id = convo5.id ∧ msg.sender_id = alice.id ∧
      msg.sender_username = alice.username ∧ msg.content = pyStrip " hello " ∧
      msg.timestamp = db0.now ∧
      ChatConsumer.receive_json db0 alice "convo_5" 5
          { action := some "message", content := some " hello " } =
        { db := { db0 with messages := db0.messages ++ [msg], nextId := db0.nextId + 1 }
        , effects := [Effect.persistMessage msg,
            Effect.send "convo_5" (GroupMsg.chatMessage (messagePayload msg))]
        , exc := none } ∧
      messagePayload msg =
        { id := msg.id, content := msg.content, sender_id := msg.sender_id
        , sender := msg.sender_username, timestamp := isoformat msg.timestamp } :=
  C1_message_persisted_once_broadcast_once db0 alice "convo_5" 5
    { action := some "message", content := some " hello " } convo5 rfl rfl (by decide)

/-- C4: for a message event, a message.created broadcast can only occur at a
trace position strictly after the successful persistence of the very record
whose payload it carries; if the persistence call raises, the database is
unchanged, no effect at all is emitted (no partial broadcast) and the event is
simply dropped: the framework loop processes the remaining events of the
connection exactly as if the failed event had never arrived, and the handler
never closes the connection. -/
theorem C4_persist_completes_before_broadcast
    (db : DB) (u : UserRec) (group : String) (cid : Nat) (ev : Inbound)
    (ha : ev.action = some "message") :
    (∀ i g' p,
        (ChatConsumer.receive_json db u group cid ev).effects.get? i =
          some (Effect.send g' (GroupMsg.chatMessage p)) →
        ∃ j m, j < i ∧
          (ChatConsumer.receive_json db u group cid ev).effects.get? j =
            some (Effect.persistMessage m) ∧ p = messagePayload m) ∧
    (∀ e, (ChatConsumer.receive_json db u group cid ev).exc = some e →
        (ChatConsumer.receive_json db u group cid ev).db = db ∧
        (ChatConsumer.receive_json db u group cid ev).effects = [] ∧
        ∀ rest, run_events u group cid db (ev :: rest) = run_events u group cid db rest) ∧
    (∀ c, Effect.close c ∉ (ChatConsumer.receive_json db u group cid ev).effects) := by
  by_cases htext : pyStrip (ev.content.getD "") = ""
  · have hrj : ChatConsumer.receive_json db u group cid ev =
        { db := db, effects := [], exc := none } := by
      simp [ChatConsumer.receive_json, ha, htext]
    refine ⟨fun i g' p h => ?_, fun e he => ?_, fun c hmem => ?_⟩
    · rw [hrj] at h; simp at h
    · rw [hrj] at he; simp at he
    · rw [hrj] at hmem; simp at hmem
  · cases hcm : ChatConsumer.create_message db u cid (pyStrip (ev.content.getD "")) with
    | error e0 =>
      have hrj : ChatConsumer.receive_json db u group cid ev =
          { db := db, effects := [], exc := some e0 } := by
        simp [ChatConsumer.receive_json, ha, htext, hcm]
      refine ⟨fun i g' p h => ?_, fun e he => ?_, fun c hmem => ?_⟩
      · rw [hrj] at h; simp at h
      · refine ⟨by rw [hrj], by rw [hrj], fun rest => ?_⟩
        cases hz : run_events u group cid db rest with
        | mk dbf trf => simp [run_events, hrj, hz]
      · rw [hrj] at hmem; simp at hmem
    | ok pair =>
      obtain ⟨msg, db'⟩ := pair
      have hrj : ChatConsumer.receive_json db u group cid ev =
          { db := db'
          , effects := [Effect.persistMessage msg,
              Effect.send group (GroupMsg.chatMessage (messagePayload msg))]
          , exc := none } := by
        simp [ChatConsumer.receive_json, ha, htext, hcm]
      refine ⟨fun i g' p h => ?_, fun e he => ?_, fun c hmem => ?_⟩
      · rw [hrj] at h
        match i with
        | 0 => simp at h
        | 1 =>
          simp at h
          exact ⟨0, msg, by decide, by rw [hrj]; rfl, h.2.symm⟩
        | (n + 2) => simp at h
      · rw [hrj] at he; simp at he
      · rw [hrj] at hmem; simp at hmem

/-- Witness for C4: alice sends a message on a conversation id that no longer
exists; the persistence call fails, the event is dropped and the rest of the
connection's events are processed unchanged. -/
theorem C4_persist_completes_before_broadcast_witness :
    (ChatConsumer.receive_json db0 alice "convo_6" 6
        { action := some "message", content := some "hi" }).db = db0 ∧
    (ChatConsumer.receive_json db0 alice "convo_6" 6
        { action := some "message", content := some "hi" }).effects = [] ∧
    run_events alice "convo_6" 6 db0
        [{ action := some "message", content := some "hi" },
         { action := some "typing", content := none }] =
      run_events alice "convo_6" 6 db0 [{ action := some "typing", content := none }] := by
  have h := (C4_persist_completes_before_broadcast db0 alice "convo_6" 6
      { action := some "message", content := some "hi" } rfl).2.1 PyExc.doesNotExist (by decide)
  exact ⟨h.1, h.2.1, h.2.2 [{ action := some "typing", content := none }]⟩

/-- C8, evaluated at the failing input: an anonymous connection to the
notification channel is closed with 4403 without ever assigning the group
attribute, so the ensuing disconnect raises AttributeError instead of being a
no-op — refuting the claim for the user-notification kind — while the
conversation kind in the same situation discards from the never-joined group
without error, leaving every group's membership unchanged, and a second
discard of an already-removed channel changes nothing. -/
theorem C8_notif_disconnect_after_forbidden_close_errors :
    UserNotificationsConsumer.disconnect
        (UserNotificationsConsumer.connect .anonymous "chN").st "chN" =
      .error .attributeError ∧
    ChatConsumer.disconnect (ChatConsumer.connect db0 .anonymous 5 "chA").st "chA" =
      .ok [Effect.groupDiscard (convoGroup 5) "chA"] ∧
    applyEffects [("convo_5", ["chB"])] [Effect.groupDiscard (convoGroup 5) "chA"] =
      [("convo_5", ["chB"])] ∧
    applyEffects [("convo_5", ["chA", "chB"])]
        [Effect.groupDiscard (convoGroup 5) "chA", Effect.groupDiscard (convoGroup 5) "chA"] =
      applyEffects [("convo_5", ["chA", "chB"])] [Effect.groupDiscard (convoGroup 5) "chA"] := by
  refine ⟨rfl, rfl, by decide, by decide⟩

/-- C9: the three fan-out publisher operations are fire-and-forget from the
REST call sites: for every behavior of the channel layer — including one whose
every group_send raises — message creation still persists its message and
returns it, mark-read still returns its count, and both responses are
completely independent of the layer. -/
theorem C9_fanout_failure_never_propagates
    (db : DB) (layer : Layer) (u : UserRec) (cid : Nat) (text : String)
    (convo : Conversation)
    (hc : db.getConversation cid = some convo)
    (hp : u.id ∈ convo.participants) :
    (∃ msg db', perform_create db layer u cid text = .ok (msg, db') ∧
        db'.messages = db.messages ++ [msg]) ∧
    (∃ n db2, mark_conversation_read_post db layer u cid = .ok (n, db2)) ∧
    (∀ layer' : Layer,
        perform_create db layer u cid text = perform_create db layer' u cid text ∧
        mark_conversation_read_post db layer u cid =
          mark_conversation_read_post db layer' u cid) := by
  have h1 : ∀ ly : Layer, perform_create db ly u cid text =
      .ok ({ id := db.nextId, conversation_id := convo.id, sender_id := u.id
           , sender_username := u.username, content := text, timestamp := db.now },
        { db with
            messages := db.messages ++
              [{ id := db.nextId, conversation_id := convo.id, sender_id := u.id
               , sender_username := u.username, content := text, timestamp := db.now }]
            , nextId := db.nextId + 1 }) := by
    intro ly
    simp [perform_create, hc, hp]
  have h2 : ∀ ly : Layer, mark_conversation_read_post db ly u cid =
      .ok ((unreadMessages db u cid).length,
        { db with reads := bulk_create_ignore_conflicts db.reads ((unreadMessages db u cid).map (fun m => MessageRead.mk m.id u.id)) }) := by
    intro ly
    simp [mark_conversation_read_post, hc, hp]
  exact ⟨⟨_, _, h1 layer, rfl⟩, ⟨_, _, h2 layer⟩,
    fun ly => ⟨(h1 layer).trans (h1 ly).symm, (h2 layer).trans (h2 ly).symm⟩⟩

/-- The database state after a read by u on conversation cid: the markers of
the unread set are appended. -/
def dbAfterRead (db : DB) (u : UserRec) (cid : Nat) : DB :=
  { db with reads := db.reads ++ (unreadMessages db u cid).map (fun m => MessageRead.mk m.id u.id) }

/-- C3: the read operation is idempotent. On an existing conversation with
pairwise-distinct message ids and no duplicate read marker, a first read event
appends read markers for exactly the unread non-own messages and broadcasts
updated = K (the number of markers newly created); the resulting marker table
still has no duplicate (message, user) pair; and an immediately following
second read by the same principal leaves the database unchanged and broadcasts
updated = 0. -/
theorem C3_read_idempotent
    (db : DB) (u : UserRec) (group : String) (cid : Nat) (convo : Conversation)
    (hc : db.getConversation cid = some convo)
    (hm : (db.messages.map Message.id).Nodup)
    (hr : (db.reads.map readKey).Nodup) :
    ∃ db1 : DB,
      ChatConsumer.receive_json db u group cid { action := some "read", content := none } =
        { db := db1
        , effects := [Effect.send group
            (GroupMsg.chatRead (some u.id) (unreadMessages db u cid).length)]
        , exc := none } ∧
      db1.reads = db.reads ++ (unreadMessages db u cid).map (fun m => MessageRead.mk m.id u.id) ∧
      (db1.reads.map readKey).Nodup ∧
      ChatConsumer.receive_json db1 u group cid { action := some "read", content := none } =
        { db := db1
        , effects := [Effect.send group (GroupMsg.chatRead (some u.id) 0)]
        , exc := none } := by
  refine ⟨dbAfterRead db u cid, ?_, rfl, ?_, ?_⟩
  · have hmr := mark_read_spec db u cid convo hc hm
    simp [ChatConsumer.receive_json, dbAfterRead, hmr]
  · simp only [dbAfterRead]
    rw [List.map_append, List.nodup_append]
    refine ⟨hr, unread_nodup_keys db u cid hm, ?_⟩
    intro k hk1 hk2
    obtain ⟨r0, hr0, hkr0⟩ := List.mem_map.mp hk1
    obtain ⟨rm, hrm, hkrm⟩ := List.mem_map.mp hk2
    have hfresh := unread_batch_disjoint db u cid rm hrm
    have hkeys : rm.message_id = r0.message_id ∧ rm.user_id = r0.user_id := by
      have := hkrm.trans hkr0.symm
      simpa [readKey, Prod.ext_iff] using this
    have hconf : (r0.message_id == rm.message_id && r0.user_id == rm.user_id) = true := by
      simp [hkeys.1, hkeys.2]
    have : db.reads.any
        (fun x => x.message_id == rm.message_id && x.user_id == rm.user_id) = true :=
      List.any_eq_true.mpr ⟨r0, hr0, hconf⟩
    rw [this] at hfresh
    exact Bool.noConfusion hfresh
  · have hue : unreadMessages (dbAfterRead db u cid) u cid = [] := unread_after_empty db u cid
    have hc1 : DB.getConversation (dbAfterRead db u cid) cid = some convo := hc
    have hmr2 : ChatConsumer.mark_read (dbAfterRead db u cid) u cid =
        .ok (0, dbAfterRead db u cid) := by
      simp [ChatConsumer.mark_read, hc1, hue, bulk_create_ignore_conflicts]
    simp [ChatConsumer.receive_json, hmr2]

/-- The database state after alice's first read of conversation 5 in db1: a
single marker for bob's message 7. -/
def db1AfterRead : DB := { db1 with reads := [{ message_id := 7, user_id := 1 }] }

/-- Witness for C3: in db1 alice has exactly one unread non-own message
(bob's message 7); the first read marks it and broadcasts updated = 1, the
second changes nothing and broadcasts updated = 0. -/
theorem C3_read_idempotent_witness :
    ChatConsumer.receive_json db1 alice "convo_5" 5 { action := some "read", content := none } =
      { db := db1AfterRead
      , effects := [Effect.send "convo_5" (GroupMsg.chatRead (some 1) 1)], exc := none } ∧
    ChatConsumer.receive_json db1AfterRead alice "convo_5" 5
        { action := some "read", content := none } =
      { db := db1AfterRead
      , effects := [Effect.send "convo_5" (GroupMsg.chatRead (some 1) 0)], exc := none } := by
  obtain ⟨d, h1, _h2, _h3, h4⟩ :=
    C3_read_idempotent db1 alice "convo_5" 5 convo5 rfl (by decide) (by decide)
  have hconc : ChatConsumer.receive_json db1 alice "convo_5" 5
      { action := some "read", content := none } =
      { db := db1AfterRead
      , effects := [Effect.send "convo_5" (GroupMsg.chatRead (some 1) 1)], exc := none } := by
    decide
  have hd : d = db1AfterRead := congrArg StepOut.db (h1.symm.trans hconc)
  rw [hd] at h4
  exact ⟨hconc, h4⟩

/-- Witness for C9: with a channel layer whose every send raises, alice's REST
message creation and mark-read on conversation 5 both still succeed. -/
theorem C9_fanout_failure_never_propagates_witness :
    (∃ msg db', perform_create db1 failLayer alice 5 "hello" = .ok (msg, db') ∧
        db'.messages = db1.messages ++ [msg]) ∧
    (∃ n db2, mark_conversation_read_post db1 failLayer alice 5 = .ok (n, db2)) := by
  have h := C9_fanout_failure_never_propagates db1 failLayer alice 5 "hello" convo5 rfl
    (by decide)
  exact ⟨h.1, h.2.1⟩

end Fasolink
